import Mathlib

/-!
Verification of the inventory / sales / payments backend (apiManngo).

This file gives a shallow embedding of the data model (`models.py`) and of the
request handlers the claims are about:

* `Venta.actualizar_estado`                       (models.py, lines 137-148)
* `PagoResource.post`, JSON branch                (resources/pago_resource.py, lines 107-150)
* `PagoBatchResource.post`                        (resources/pago_resource.py, lines 358-481)
* `VentaResource.post`                            (resources/venta_resource.py, lines 102-202)
* `VentaResource.put`                             (resources/venta_resource.py, lines 204-226)
* `VentaResource.delete`                          (resources/venta_resource.py, lines 228-258)
* `PedidoConversionResource.post`                 (resources/pedido_resource.py, lines 157-267)
* `TransferenciaService.ejecutar_transferencia`   (resources/transferencia_resource.py)

Conventions of the embedding:

* SQL `Numeric` (Python `Decimal`) values are modelled as `ℚ`; all comparisons
  in the sources are exact decimal comparisons, which `ℚ` reproduces exactly.
  The single float that appears (`0.001` in `Venta.actualizar_estado`) is
  modelled by its exact binary-64 value (see `epsFloat`).
* Database tables are Lean lists inside one `DB` structure; one HTTP request
  is a function `DB → ... → Resp × DB`.  A handler that raises or returns an
  error rolls its transaction back, so on every error branch the returned
  state is the input state unchanged.
* Columns that never influence control flow or the claims (timestamps,
  `created_at`/`updated_at`, photo/receipt URL columns, user ids on rows) are
  elided; each structure's doc comment names its source class.
* Dynamic parts of error *messages* (interpolated amounts) are elided; the
  static prefix of each message is kept.  Interpolated values inside Movement
  `motivo` strings are kept exactly, because `VentaResource.delete` matches on
  them (`LIKE 'Venta ID: {id}%'`).
-/

/-!
Arithmetic helpers.  `Rat.add`, `Rat.sub` and `Rat.mul` are `@[irreducible]`
in this toolchain, which blocks kernel evaluation of concrete scenarios, so
the embedding uses the equivalent `mkRat` forms below; `qadd_eq`, `qsub_eq`
and `qmul_eq` prove they are exactly `+`, `-` and `*` on `ℚ`.
-/

/-- Addition on `ℚ`, in a kernel-reducible form. -/
def qadd (a b : ℚ) : ℚ := mkRat (a.num * b.den + b.num * a.den) (a.den * b.den)

/-- Subtraction on `ℚ`, in a kernel-reducible form. -/
def qsub (a b : ℚ) : ℚ := mkRat (a.num * b.den - b.num * a.den) (a.den * b.den)

/-- Multiplication on `ℚ`, in a kernel-reducible form. -/
def qmul (a b : ℚ) : ℚ := mkRat (a.num * b.num) (a.den * b.den)

theorem qadd_eq (a b : ℚ) : qadd a b = a + b := (Rat.add_def' a b).symm

theorem qsub_eq (a b : ℚ) : qsub a b = a - b := (Rat.sub_def' a b).symm

theorem qmul_eq (a b : ℚ) : qmul a b = a * b := by
  rw [qmul, Rat.mul_def, Rat.normalize_eq_mkRat]

/-- Python's built-in `sum`: a left fold of `+` starting from `0`. -/
def pySum (l : List ℚ) : ℚ := l.foldl qadd 0

theorem pySum_foldl (l : List ℚ) : ∀ init : ℚ, l.foldl qadd init = init + l.sum := by
  induction l with
  | nil => intro init; simp [List.foldl]
  | cons a l ih => intro init; simp [List.foldl, qadd_eq, ih, List.sum_cons]; ring

theorem pySum_eq (l : List ℚ) : pySum l = l.sum := by
  rw [pySum, pySum_foldl]; ring

/-- Exact value of the Python float literal `0.001` used in
`Venta.actualizar_estado` (`abs(saldo) <= 0.001`); Python compares `Decimal`
against `float` by exact value, and binary-64 `0.001` is exactly
`1152921504606847 / 2^60`. -/
def epsFloat : ℚ := mkRat 1152921504606847 1152921504606846976

/-- Python's built-in `abs` on an exact numeric value. -/
def pyAbs (q : ℚ) : ℚ := if q < 0 then -q else q

/-- Structural prefix test on character lists. -/
def charsStartsWith : List Char → List Char → Bool
  | [], _ => true
  | _ :: _, [] => false
  | a :: as, b :: bs => a == b && charsStartsWith as bs

/-- SQL `column LIKE 'pat%'`: `pat` is a prefix of the column value.  (The
`String.isPrefixOf` of the standard library is byte-indexed and does not
kernel-reduce, hence this structural equivalent.) -/
def strStartsWith (pat s : String) : Bool := charsStartsWith pat.data s.data

/-- Python `str()` of an optional integer: `str(None) = "None"`.
Used for the f-string `f"Venta ID: {venta.id} ..."` where `venta.id` can be
the un-flushed `None`. -/
def pyStr : Option Nat → String
  | none => "None"
  | some n => toString n

/-- Model of `PresentacionProducto` (models.py 35-54); only the fields the
embedded handlers read. -/
structure Presentacion where
  id : Nat
  nombre : String
  precioVenta : ℚ
  deriving Repr, DecidableEq

/-- Model of `Lote` (models.py 56-67); only `cantidad_disponible_kg` matters
to the claims. -/
structure Lote where
  id : Nat
  cantidadDisponibleKg : ℚ
  deriving Repr, DecidableEq

/-- Model of `Almacen` (models.py 73-87). -/
structure Almacen where
  id : Nat
  nombre : String
  deriving Repr, DecidableEq

/-- Model of `Cliente` (models.py 196-219); `nombre` is interpolated into
Movement `motivo` strings. -/
structure Cliente where
  id : Nat
  nombre : String
  deriving Repr, DecidableEq

/-- Model of `Inventario` (models.py 89-111).  `cantidad` is an `Integer` column but
`VentaResource.delete` adds the `Numeric` movement quantity to it, so it is
modelled in `ℚ`.  The unique constraint is `(presentacion_id, almacen_id)`. -/
structure Inventario where
  presentacionId : Nat
  almacenId : Nat
  loteId : Option Nat
  cantidad : ℚ
  stockMinimo : ℚ
  deriving Repr, DecidableEq

/-- Model of `VentaDetalle` (models.py 155-172). -/
structure VentaDetalle where
  presentacionId : Nat
  cantidad : ℚ
  precioUnitario : ℚ
  deriving Repr, DecidableEq

/-- Model of `Venta` (models.py 113-153). -/
structure Venta where
  id : Nat
  clienteId : Nat
  almacenId : Nat
  total : ℚ
  tipoPago : String
  estadoPago : String
  detalles : List VentaDetalle
  deriving Repr, DecidableEq

/-- Model of `Pago` (models.py 222-239); `metodo_pago`, `referencia`, receipt key and
user elided (they never influence control flow). -/
structure Pago where
  ventaId : Nat
  monto : ℚ
  deriving Repr, DecidableEq

/-- Model of `Movimiento` (models.py 241-282).  `presentacion_id` is nullable in the
schema but every creation site in the embedded handlers supplies it. -/
structure Movimiento where
  tipo : String
  presentacionId : Nat
  loteId : Option Nat
  cantidad : ℚ
  motivo : String
  deriving Repr, DecidableEq

/-- Model of `PedidoDetalle` (models.py 329-340). -/
structure PedidoDetalle where
  presentacionId : Nat
  cantidad : ℚ
  precioEstimado : ℚ
  deriving Repr, DecidableEq

/-- Model of `Pedido` (models.py 303-327). -/
structure Pedido where
  id : Nat
  clienteId : Nat
  almacenId : Nat
  estado : String
  detalles : List PedidoDetalle
  deriving Repr, DecidableEq

/-- The relational store: one list per table, plus the auto-increment counter
for `ventas.id` (sequence values may be consumed by rolled-back transactions,
so `nextVentaId` need not be `ventas.length + 1`). -/
structure DB where
  presentaciones : List Presentacion
  lotes : List Lote
  almacenes : List Almacen
  clientes : List Cliente
  inventarios : List Inventario
  ventas : List Venta
  movimientos : List Movimiento
  pagos : List Pago
  pedidos : List Pedido
  nextVentaId : Nat
  /-- Keys held by the external object store (uploaded receipt files);
  `save_file` appends a key, `delete_file` removes it.  The store sits outside
  the database transaction, so rollbacks do not undo it. -/
  objetos : List String
  deriving Repr, DecidableEq

/-- Error response: HTTP status code plus (the static prefix of) the message. -/
structure Err where
  code : Nat
  msg : String
  deriving Repr, DecidableEq

/-- Decidable equality of handler results (the standard library derives none
for `Except`). -/
instance instDecEqExcept {ε α : Type} [DecidableEq ε] [DecidableEq α] :
    DecidableEq (Except ε α)
  | .error e, .error f =>
    if h : e = f then .isTrue (congrArg Except.error h)
    else .isFalse (fun hc => h (Except.error.inj hc))
  | .error _, .ok _ => .isFalse (fun hc => Except.noConfusion hc)
  | .ok _, .error _ => .isFalse (fun hc => Except.noConfusion hc)
  | .ok a, .ok b =>
    if h : a = b then .isTrue (congrArg Except.ok h)
    else .isFalse (fun hc => h (Except.ok.inj hc))

def findPresentacion (s : DB) (pid : Nat) : Option Presentacion :=
  s.presentaciones.find? (fun p => p.id == pid)

def findAlmacen (s : DB) (aid : Nat) : Option Almacen :=
  s.almacenes.find? (fun a => a.id == aid)

def findCliente (s : DB) (cid : Nat) : Option Cliente :=
  s.clientes.find? (fun c => c.id == cid)

def findVenta (s : DB) (vid : Nat) : Option Venta :=
  s.ventas.find? (fun v => v.id == vid)

def findPedido (s : DB) (pid : Nat) : Option Pedido :=
  s.pedidos.find? (fun p => p.id == pid)

/-- Embeds `Inventario.query.filter_by(presentacion_id=…, almacen_id=…).first()`;
by the unique constraint there is at most one row. -/
def findInventario (s : DB) (presId almId : Nat) : Option Inventario :=
  s.inventarios.find? (fun i => i.presentacionId == presId && i.almacenId == almId)

/-- The amounts of a sale's payments (`venta.pagos`). -/
def pagosDe (s : DB) (vid : Nat) : List ℚ :=
  (s.pagos.filter (fun p => p.ventaId == vid)).map (fun p => p.monto)

/-- Embeds `Venta.actualizar_estado` (models.py 137-148):
`total_pagado = sum(p.monto for p in self.pagos) (+ nuevo_pago.monto)`;
`saldo = total - total_pagado`; `'pagado'` if `abs(saldo) <= 0.001` (a float
literal, see `epsFloat`), else `'parcial'` if `total_pagado > 0`, else
`'pendiente'`. -/
def actualizarEstado (total : ℚ) (pagos : List ℚ) (nuevoPago : Option ℚ) : String :=
  let totalPagado := qadd (pySum pagos) (nuevoPago.getD 0)
  let saldo := qsub total totalPagado
  if pyAbs saldo ≤ epsFloat then "pagado"
  else if totalPagado > 0 then "parcial"
  else "pendiente"

/-- Embeds `Venta.saldo_pendiente` (models.py 132-135). -/
def saldoPendiente (total : ℚ) (pagos : List ℚ) : ℚ :=
  qsub total (pySum pagos)

/-!
Single-payment creation: `PagoResource.post`, `application/json` branch
(resources/pago_resource.py, lines 107-150).  The handler looks the sale up,
computes `saldo_pendiente_venta = venta.total - sum(pago.monto for pago in
venta.pagos)`, rejects with 400 when `monto > saldo_pendiente_venta` (an
exact comparison, with no epsilon), otherwise inserts the payment and calls
`venta.actualizar_estado(nuevo_pago)` before committing.
-/

/-- Request body of a JSON single-payment creation; `metodo_pago`,
`referencia` and `fecha` do not influence control flow and are elided. -/
structure PagoReq where
  ventaId : Nat
  monto : ℚ
  deriving Repr, DecidableEq

def errVentaNoEncontrada : Err := ⟨404, "Venta no encontrada"⟩

/-- Message `f"Monto {monto} excede el saldo pendiente {saldo}"` with the
interpolated amounts elided. -/
def errMontoExcede : Err := ⟨400, "Monto excede el saldo pendiente"⟩

/-- Embeds `PagoResource.post` (JSON branch).  On success the new `Pago` row
is inserted and the sale's `estado_pago` is recomputed by
`actualizar_estado` over the payments loaded before the insert plus the new
payment. -/
def pagoPost (s : DB) (req : PagoReq) : Except Err Unit × DB :=
  match findVenta s req.ventaId with
  | none => (.error errVentaNoEncontrada, s)
  | some venta =>
    let saldo := qsub venta.total (pySum (pagosDe s req.ventaId))
    if req.monto > saldo then (.error errMontoExcede, s)
    else
      let estado := actualizarEstado venta.total (pagosDe s req.ventaId) (some req.monto)
      (.ok (), { s with
        pagos := s.pagos ++ [⟨req.ventaId, req.monto⟩],
        ventas := s.ventas.map (fun v =>
          if v.id == req.ventaId then { v with estadoPago := estado } else v) })

/-!
Batch-payment creation: `PagoBatchResource.post`
(resources/pago_resource.py, lines 358-481).  The handler's first `try`
block reads the form fields, returns 400 when one of `pagos_json_data`,
`fecha`, `metodo_pago` is missing, decodes the JSON list, returns 400 when it
is not a non-empty list, and then evaluates
`fecha_pago = datetime.fromisoformat(fecha_str)` — but the module
`pago_resource.py` never imports `datetime` (its imports are at lines 1-14),
so this raises `NameError`, which the blanket `except Exception` handler of
the same `try` turns into `{"error": "Datos de formulario inválidos"}, 400`.
Consequently every request that reaches the date parse fails there: the
receipt upload (line 405), the per-pair balance validation (lines 416-459)
and the persistence loop (lines 462-473) are unreachable.
-/

/-- Form fields of a batch-payment request.  `pagosData` is the decoded
content of `pagos_json_data` (`none` when the field is missing or empty,
`some none` when present but not valid JSON, `some (some pairs)` when it
decodes to a list of `(venta_id, monto)` pairs); `hasComprobante` records
whether a receipt file is attached. -/
structure BatchReq where
  pagosData : Option (Option (List (Nat × ℚ)))
  fecha : Option String
  metodoPago : Option String
  hasComprobante : Bool
  deriving Repr, DecidableEq

def errBatchFaltanCampos : Err :=
  ⟨400, "Faltan campos requeridos (pagos_json_data, fecha, metodo_pago)"⟩

def errBatchJsonInvalido : Err := ⟨400, "Formato JSON inválido en pagos_json_data"⟩

def errBatchListaVacia : Err :=
  ⟨400, "pagos_json_data debe ser una lista no vacía de información de pagos"⟩

def errBatchDatosInvalidos : Err := ⟨400, "Datos de formulario inválidos"⟩

/-- Embeds `PagoBatchResource.post`.  The unreachable code after the date
parse is not modelled: the `NameError` on the never-imported `datetime`
(line 388) makes every control path that passes the earlier checks return
400 with the database and the object store untouched. -/
def pagoBatchPost (s : DB) (req : BatchReq) : Except Err Unit × DB :=
  match req.pagosData, req.fecha, req.metodoPago with
  | some pagosJson, some _, some _ =>
    match pagosJson with
    | none => (.error errBatchJsonInvalido, s)
    | some pairs =>
      if pairs.isEmpty then (.error errBatchListaVacia, s)
      else (.error errBatchDatosInvalidos, s)
  | _, _, _ => (.error errBatchFaltanCampos, s)

/-!
Sale creation: `VentaResource.post` (resources/venta_resource.py, lines
102-202).  After resolving the client and warehouse, the handler pre-fetches
the presentations and the warehouse's inventory records, then runs one loop
over the line items that (a) validates each item against that record's
*current* quantity, (b) collects the movement data `(presentacion_id,
inventario.lote_id, cantidad)`, (c) accumulates the total, and (d) stores
`(inventario, cantidad)` into the dict `inventarios_a_actualizar` keyed by
`presentacion.id` — a plain dict assignment, so a later line item with the
same presentation *overwrites* the earlier entry.  On success it flushes the
sale (assigning its id), inserts one `salida` Movement per line item with
`motivo = f"Venta ID: {venta.id} - Cliente: {cliente.nombre}"`, and debits
each dict entry once.
-/

/-- One line item of a sale-creation request; `precio_unitario` may be
absent (or `0`, which Python treats as falsy, line 146). -/
structure VentaDetalleReq where
  presentacionId : Nat
  cantidad : ℚ
  precioUnitario : Option ℚ
  deriving Repr, DecidableEq

/-- Body of a sale-creation request. -/
structure VentaReq where
  clienteId : Nat
  almacenId : Nat
  tipoPago : String
  consumoDiarioKg : Option ℚ
  detalles : List VentaDetalleReq
  deriving Repr, DecidableEq

/-- Movement data collected during the validation loop (lines 150-154). -/
structure MovData where
  presentacionId : Nat
  loteId : Option Nat
  cantidad : ℚ
  deriving Repr, DecidableEq

def errClienteNoEncontrado : Err := ⟨404, "Cliente no encontrado"⟩
def errAlmacenNoEncontrado : Err := ⟨404, "Almacén no encontrado"⟩
def errVentaSinDetalle : Err := ⟨400, "La venta debe tener al menos un detalle"⟩
def errPresentacionNoEncontrada : Err := ⟨404, "Presentación no encontrada"⟩

/-- Message `f"Stock insuficiente para {nombre} (Disponible: {d})"` with the
interpolations elided. -/
def errStockInsuficiente : Err := ⟨400, "Stock insuficiente"⟩

def errConsumoDiario : Err := ⟨500, "El consumo diario debe ser mayor a 0"⟩

/-- Python dict assignment `d[k] = v`: overwrites the value of an existing
key in place, appends a new key at the end. -/
def dictInsert (k : Nat) (v : ℚ) : List (Nat × ℚ) → List (Nat × ℚ)
  | [] => [(k, v)]
  | (k', v') :: rest => if k' == k then (k, v) :: rest else (k', v') :: dictInsert k v rest

/-- Embeds the validation loop of `VentaResource.post` (lines 133-157):
returns the movement data, the total, the `inventarios_a_actualizar` dict
(presentation id ↦ quantity of its *last* line item) and the line items with
defaulted unit prices, or the first error. -/
def procesarDetalles (s : DB) (almacenId : Nat) :
    List VentaDetalleReq → List MovData → ℚ → List (Nat × ℚ) → List VentaDetalle →
    Except Err (List MovData × ℚ × List (Nat × ℚ) × List VentaDetalle)
  | [], movs, total, dict, dets => .ok (movs, total, dict, dets)
  | d :: rest, movs, total, dict, dets =>
    match findPresentacion s d.presentacionId with
    | none => .error errPresentacionNoEncontrada
    | some pres =>
      match findInventario s d.presentacionId almacenId with
      | none => .error errStockInsuficiente
      | some inv =>
        if inv.cantidad < d.cantidad then .error errStockInsuficiente
        else
          let precio := match d.precioUnitario with
            | none => pres.precioVenta
            | some p => if p == 0 then pres.precioVenta else p
          procesarDetalles s almacenId rest
            (movs ++ [⟨d.presentacionId, inv.loteId, d.cantidad⟩])
            (qadd total (qmul d.cantidad precio))
            (dictInsert d.presentacionId d.cantidad dict)
            (dets ++ [⟨d.presentacionId, d.cantidad, precio⟩])

/-- Subtracts `c` from the quantity of the (by the unique constraint, at
most one) inventory record with the given presentation and warehouse. -/
def updateInvSub : List Inventario → Nat → Nat → ℚ → List Inventario
  | [], _, _, _ => []
  | inv :: rest, presId, almId, c =>
    if inv.presentacionId == presId && inv.almacenId == almId then
      { inv with cantidad := qsub inv.cantidad c } :: rest
    else inv :: updateInvSub rest presId almId c

/-- Embeds lines 185-187: one decrement per entry of
`inventarios_a_actualizar`. -/
def debitarInventarios (almacenId : Nat) (invs : List Inventario)
    (dict : List (Nat × ℚ)) : List Inventario :=
  dict.foldl (fun acc kc => updateInvSub acc kc.1 almacenId kc.2) invs

/-- Embeds `VentaResource.post`.  Returns the created sale's id on success.
The per-client purchase-projection update (lines 190-195) only touches
`Cliente` columns that are elided here, but its `ValueError` branch (a
non-positive `consumo_diario_kg`, caught by the `except` at line 200 after
rollback) is kept. -/
def ventaPost (s : DB) (req : VentaReq) : Except Err Nat × DB :=
  match findCliente s req.clienteId with
  | none => (.error errClienteNoEncontrado, s)
  | some cliente =>
    match findAlmacen s req.almacenId with
    | none => (.error errAlmacenNoEncontrado, s)
    | some _ =>
      if req.detalles.isEmpty then (.error errVentaSinDetalle, s)
      else
        match procesarDetalles s req.almacenId req.detalles [] 0 [] [] with
        | .error e => (.error e, s)
        | .ok (movDatas, total, dict, dets) =>
          let vid := s.nextVentaId
          let movs := movDatas.map (fun m =>
            Movimiento.mk "salida" m.presentacionId m.loteId m.cantidad
              ("Venta ID: " ++ toString vid ++ " - Cliente: " ++ cliente.nombre))
          let s' : DB := { s with
            ventas := s.ventas ++ [⟨vid, req.clienteId, req.almacenId, total,
              req.tipoPago, "pendiente", dets⟩],
            movimientos := s.movimientos ++ movs,
            inventarios := debitarInventarios req.almacenId s.inventarios dict,
            nextVentaId := vid + 1 }
          match req.consumoDiarioKg with
          | some c => if c ≤ 0 then (.error errConsumoDiario, s) else (.ok vid, s')
          | none => (.ok vid, s')

/-!
Sale update: `VentaResource.put` (resources/venta_resource.py, lines
204-226).  The handler iterates over the immutable fields `["detalles",
"almacen_id"]`; a field present in the raw JSON whose `str()` differs from
`str(getattr(venta, field))` is rejected with 400.  For `detalles` the raw
value is a JSON list while `venta.detalles` is a list of `VentaDetalle` ORM
objects, whose `str()` is of the form `[<VentaDetalle …>]` — the two strings
are never equal, so *any* request that includes `detalles` is rejected.  No
branch of the handler touches `Inventario` or `Movimiento` rows.
-/

/-- Body of a sale-update request: whether `detalles` appears at all, plus
the scalar fields. -/
structure VentaPutReq where
  detallesProvided : Bool
  almacenId : Option Nat
  tipoPago : Option String
  deriving Repr, DecidableEq

def errInmutableDetalles : Err := ⟨400, "Campo inmutable 'detalles' no puede modificarse"⟩
def errInmutableAlmacen : Err := ⟨400, "Campo inmutable 'almacen_id' no puede modificarse"⟩

/-- Embeds `venta_schema.load(raw_data, instance=venta, partial=True)` +
commit: the supplied mutable scalar fields are loaded onto the row in place.
schemas.py is not part of this snapshot; modelled from the spec: `update …
Immutable fields (warehouse) reject mutation attempts`, other supplied
fields are applied; `tipo_pago` stands for the mutable scalar fields. -/
def aplicarVentaPut (s : DB) (ventaId : Nat) (req : VentaPutReq) : DB :=
  { s with ventas := s.ventas.map (fun v =>
      if v.id == ventaId then { v with tipoPago := req.tipoPago.getD v.tipoPago } else v) }

/-- Embeds `VentaResource.put`. -/
def ventaPut (s : DB) (ventaId : Nat) (req : VentaPutReq) : Except Err Unit × DB :=
  match findVenta s ventaId with
  | none => (.error errVentaNoEncontrada, s)
  | some venta =>
    if req.detallesProvided then (.error errInmutableDetalles, s)
    else
      match req.almacenId with
      | some a =>
        if a == venta.almacenId then (.ok (), aplicarVentaPut s ventaId req)
        else (.error errInmutableAlmacen, s)
      | none => (.ok (), aplicarVentaPut s ventaId req)

/-!
Sale deletion: `VentaResource.delete` (resources/venta_resource.py, lines
228-258).  The handler selects `Movimiento.query.filter(Movimiento.motivo
.like(f"Venta ID: {venta_id}%"))` — i.e. every movement whose `motivo`
*starts with* the string `"Venta ID: " + str(venta_id)`, which also matches
any sale id having `venta_id` as a decimal prefix ("Venta ID: 1" matches
"Venta ID: 10 - …").  For each matched movement it credits
`movimiento.cantidad` back to the first inventory record with that
movement's `presentacion_id` in the *deleted sale's* warehouse, if one
exists, and deletes the movement; finally it deletes the sale (cascading
its line items and payments).
-/

/-- The LIKE pattern prefix `f"Venta ID: {venta_id}"`. -/
def ventaTag (ventaId : Nat) : String := "Venta ID: " ++ toString ventaId

/-- Adds `c` to the quantity of the first inventory record matching the
given presentation and warehouse, leaving the list unchanged when there is
none (the `if inventario:` guard at line 246). -/
def creditInventario : List Inventario → Nat → Nat → ℚ → List Inventario
  | [], _, _, _ => []
  | inv :: rest, presId, almId, c =>
    if inv.presentacionId == presId && inv.almacenId == almId then
      { inv with cantidad := qadd inv.cantidad c } :: rest
    else inv :: creditInventario rest presId almId c

/-- Embeds `VentaResource.delete`. -/
def ventaDelete (s : DB) (ventaId : Nat) : Except Err Unit × DB :=
  match findVenta s ventaId with
  | none => (.error errVentaNoEncontrada, s)
  | some venta =>
    let matched := s.movimientos.filter (fun m => strStartsWith (ventaTag ventaId) m.motivo)
    let invs := matched.foldl
      (fun acc m => creditInventario acc m.presentacionId venta.almacenId m.cantidad)
      s.inventarios
    (.ok (), { s with
      inventarios := invs,
      movimientos := s.movimientos.filter (fun m => !(strStartsWith (ventaTag ventaId) m.motivo)),
      ventas := s.ventas.filter (fun v => !(v.id == ventaId)),
      pagos := s.pagos.filter (fun p => !(p.ventaId == ventaId)) })

/-!
Order-to-sale conversion: `PedidoConversionResource.post`
(resources/pedido_resource.py, lines 157-267).  After the terminal-state and
empty-order checks, the handler verifies stock for every order line against
the pre-fetched inventory records — each line *independently* against the
same current quantity, with no accounting for earlier lines of the same
presentation — and only then applies the debits one line at a time, with no
further guard.  The new `Venta` object is *not* added to the session before
the movement loop, so `venta.id` is still `None` when the f-string
`f"Venta ID: {venta.id} - Cliente: {pedido.cliente.nombre} (desde pedido
{pedido.id})"` is evaluated; the sale only receives its id at the final
commit (line 261-262).
-/

def errPedidoNoEncontrado : Err := ⟨404, "Pedido no encontrado"⟩
def errPedidoEntregado : Err := ⟨400, "Este pedido ya fue entregado"⟩
def errPedidoCancelado : Err := ⟨400, "No se puede convertir un pedido cancelado"⟩
def errPedidoSinDetalles : Err := ⟨400, "El pedido no tiene detalles para convertir"⟩
def errStockPedido : Err := ⟨400, "Stock insuficiente para completar el pedido"⟩

/-- Message of `handle_db_errors` for an unhandled exception,
`f"Error interno del servidor: {e}"` with the interpolation elided. -/
def errInterno : Err := ⟨500, "Error interno del servidor"⟩

/-- Embeds the stock check of lines 186-202: a line is short when there is
no inventory record for its presentation in the order's warehouse or the
record's quantity is below the requested quantity. -/
def pedidoShortfall (s : DB) (almacenId : Nat) (dets : List PedidoDetalle) : Bool :=
  dets.any (fun d =>
    match findInventario s d.presentacionId almacenId with
    | none => true
    | some inv => if inv.cantidad < d.cantidad then true else false)

/-- Embeds the construction of the sale's line items (lines 212-227):
`precio_actual = detalle_pedido.presentacion.precio_venta` (a missing
presentation row would raise and become a 500), and the final price is the
current one when `usar_precio_actual` else the order's estimate. -/
def construirDetallesVenta (s : DB) (usarPrecioActual : Bool) :
    List PedidoDetalle → Except Err (List VentaDetalle)
  | [] => .ok []
  | d :: rest =>
    match findPresentacion s d.presentacionId with
    | none => .error errInterno
    | some pres =>
      let precioFinal := if usarPrecioActual then pres.precioVenta else d.precioEstimado
      match construirDetallesVenta s usarPrecioActual rest with
      | .error e => .error e
      | .ok dets => .ok (⟨d.presentacionId, d.cantidad, precioFinal⟩ :: dets)

/-- Embeds the apply loop of lines 233-250: for each line item, re-query the
inventory record (same row as in the check), decrement it *without any
guard*, and insert the `salida` Movement whose `motivo` interpolates the
still-`None` sale id. -/
def aplicarConversion (almacenId : Nat) (clienteNombre : String) (pedidoId : Nat) :
    List Inventario → List VentaDetalle → Except Err (List Inventario × List Movimiento)
  | invs, [] => .ok (invs, [])
  | invs, d :: rest =>
    match invs.find? (fun i => i.presentacionId == d.presentacionId && i.almacenId == almacenId) with
    | none => .error errInterno
    | some inv =>
      let invs' := updateInvSub invs d.presentacionId almacenId d.cantidad
      let mov : Movimiento := ⟨"salida", d.presentacionId, inv.loteId, d.cantidad,
        "Venta ID: " ++ pyStr none ++ " - Cliente: " ++ clienteNombre ++
          " (desde pedido " ++ toString pedidoId ++ ")"⟩
      match aplicarConversion almacenId clienteNombre pedidoId invs' rest with
      | .error e => .error e
      | .ok (invsF, movsF) => .ok (invsF, mov :: movsF)

/-- Embeds `PedidoConversionResource.post`.  Returns the created sale's id.
`tipoPago` is `request.json.get('tipo_pago', 'contado')` and
`usarPrecioActual` is `request.json.get('usar_precio_actual', True)`.  The
client-projection branch (lines 253-256) is dead code: the new sale is
created without `consumo_diario_kg`, so the condition at line 253 is always
false. -/
def pedidoConversion (s : DB) (pedidoId : Nat) (tipoPago : String)
    (usarPrecioActual : Bool) : Except Err Nat × DB :=
  match findPedido s pedidoId with
  | none => (.error errPedidoNoEncontrado, s)
  | some pedido =>
    if pedido.estado == "entregado" then (.error errPedidoEntregado, s)
    else if pedido.estado == "cancelado" then (.error errPedidoCancelado, s)
    else if pedido.detalles.isEmpty then (.error errPedidoSinDetalles, s)
    else if pedidoShortfall s pedido.almacenId pedido.detalles then (.error errStockPedido, s)
    else
      match findCliente s pedido.clienteId with
      | none => (.error errInterno, s)
      | some cliente =>
        match construirDetallesVenta s usarPrecioActual pedido.detalles with
        | .error e => (.error e, s)
        | .ok dets =>
          let total := (dets.map (fun d => qmul d.cantidad d.precioUnitario)).foldl qadd 0
          match aplicarConversion pedido.almacenId cliente.nombre pedidoId s.inventarios dets with
          | .error e => (.error e, s)
          | .ok (invs, movs) =>
            let vid := s.nextVentaId
            (.ok vid, { s with
              inventarios := invs,
              movimientos := s.movimientos ++ movs,
              pedidos := s.pedidos.map (fun p =>
                if p.id == pedidoId then { p with estado := "entregado" } else p),
              ventas := s.ventas ++ [⟨vid, pedido.clienteId, pedido.almacenId, total,
                tipoPago, "pendiente", dets⟩],
              nextVentaId := vid + 1 })

/-!
Inter-warehouse transfer: `TransferenciaService`
(resources/transferencia_resource.py).  `ejecutar_transferencia` validates
the request shape, fetches the inventory dictionaries keyed by
`(presentacion_id, lote_id)`, validates stock for every line — each line
independently against the same fetched quantity — and then calls
`_actualizar_inventarios_y_crear_movimientos`.  That method's first loop
iteration constructs `Movimiento(tipo='salida', motivo=…, **transfer,
usuario_id=…, tipo_operacion='transferencia', fecha=…)` (lines 151-154).
The SQLAlchemy declarative constructor raises `TypeError` for any keyword
that is not an attribute of the model class, and `Movimiento`
(models.py 241-282) has no `tipo_operacion` attribute, so the loop raises on
its first movement; the resource's blanket `except Exception` handler rolls
back and returns 500 (lines 196-199).
-/

/-- One line of a transfer request. -/
structure TransferLinea where
  presentacionId : Nat
  loteId : Option Nat
  cantidad : ℚ
  deriving Repr, DecidableEq

/-- Body of a transfer request. -/
structure TransferReq where
  almacenOrigenId : Option Nat
  almacenDestinoId : Option Nat
  transferencias : List TransferLinea
  deriving Repr, DecidableEq

/-- Attributes of the `Movimiento` model class (models.py 241-282): its
columns, relationships and the `total_kg` property.  The SQLAlchemy
declarative constructor accepts exactly these keyword arguments. -/
def movimientoAttrs : List String :=
  ["id", "tipo", "presentacion_id", "presentacion", "lote_id", "lote",
   "usuario_id", "usuario", "cantidad", "fecha", "motivo",
   "created_at", "updated_at", "total_kg"]

/-- Keyword arguments passed to `Movimiento(...)` by
`_actualizar_inventarios_y_crear_movimientos` (lines 151-158): the explicit
keywords plus the keys of the unpacked `**transfer` dict. -/
def kwargsMovimientoTransferencia : List String :=
  ["tipo", "motivo", "presentacion_id", "lote_id", "cantidad",
   "usuario_id", "tipo_operacion", "fecha"]

/-- Embeds the SQLAlchemy declarative `__init__`: raises `TypeError` when
some keyword is not an attribute of the model class, otherwise returns the
row. -/
def mkMovimientoDecl (kwargs : List String) (m : Movimiento) : Except String Movimiento :=
  match kwargs.find? (fun k => !(movimientoAttrs.contains k)) with
  | some k => .error ("TypeError: " ++ k ++ " is an invalid keyword argument for Movimiento")
  | none => .ok m

/-- Embeds `_obtener_inventarios` + the per-line lookup: the dictionary is
keyed by `(presentacion_id, lote_id)` within one warehouse. -/
def findInventarioLote (s : DB) (almId presId : Nat) (loteId : Option Nat) : Option Inventario :=
  s.inventarios.find? (fun i =>
    i.almacenId == almId && i.presentacionId == presId && i.loteId == loteId)

def errTransferMismoAlmacen : Err :=
  ⟨400, "El almacén de origen y destino no pueden ser el mismo."⟩
def errTransferCamposRequeridos : Err :=
  ⟨400, "Los campos 'almacen_origen_id' y 'almacen_destino_id' son requeridos."⟩
def errTransferCantidad : Err := ⟨400, "la cantidad debe ser positiva."⟩

/-- Message `f"Stock insuficiente para '{nombre}'. Requerido: …"` with the
interpolations elided. -/
def errTransferStock : Err := ⟨400, "Stock insuficiente para"⟩

def errTransferInterno : Err :=
  ⟨500, "Ocurrió un error interno al procesar la transferencia."⟩

/-- Embeds `_actualizar_inventarios_y_crear_movimientos` (lines 117-167):
per line, decrement the origin record, increment or create the destination
record (a new record inherits the origin's `stock_minimo`), then construct
the `salida`/`entrada` movement pair — whose construction raises `TypeError`
(see the section comment), so the first iteration always fails. -/
def aplicarTransferencias (s : DB) (origenId destinoId : Nat)
    (origenNombre destinoNombre : String) :
    List Inventario → List TransferLinea → Except String (List Inventario × List Movimiento)
  | invs, [] => .ok (invs, [])
  | invs, t :: rest =>
    match invs.find? (fun i =>
        i.almacenId == origenId && i.presentacionId == t.presentacionId
          && i.loteId == t.loteId) with
    | none => .error "KeyError"
    | some invO =>
      let invs1 := invs.map (fun i =>
        if i.almacenId == origenId && i.presentacionId == t.presentacionId
            && i.loteId == t.loteId then
          { i with cantidad := qsub i.cantidad t.cantidad }
        else i)
      let invs2 :=
        match findInventarioLote s destinoId t.presentacionId t.loteId with
        | some _ => invs1.map (fun i =>
            if i.almacenId == destinoId && i.presentacionId == t.presentacionId
                && i.loteId == t.loteId then
              { i with cantidad := qadd i.cantidad t.cantidad }
            else i)
        | none => invs1 ++ [⟨t.presentacionId, destinoId, t.loteId, t.cantidad, invO.stockMinimo⟩]
      match mkMovimientoDecl kwargsMovimientoTransferencia
          ⟨"salida", t.presentacionId, t.loteId, t.cantidad,
            "Transferencia a " ++ destinoNombre⟩ with
      | .error e => .error e
      | .ok mSalida =>
        match mkMovimientoDecl kwargsMovimientoTransferencia
            ⟨"entrada", t.presentacionId, t.loteId, t.cantidad,
              "Transferencia desde " ++ origenNombre⟩ with
        | .error e => .error e
        | .ok mEntrada =>
          match aplicarTransferencias s origenId destinoId origenNombre destinoNombre
              invs2 rest with
          | .error e => .error e
          | .ok (invsF, movsF) => .ok (invsF, mSalida :: mEntrada :: movsF)

/-- Embeds `TransferenciaInventarioResource.post` /
`TransferenciaService.ejecutar_transferencia`: request-shape validation,
stock validation for every line against the fetched records, then the apply
loop; any `ValueError` becomes 400, any other exception (here the
`TypeError` from the movement constructor) becomes 500, both with full
rollback. -/
def transferenciaPost (s : DB) (req : TransferReq) : Except Err Unit × DB :=
  match req.almacenOrigenId, req.almacenDestinoId with
  | some o, some d =>
    if o == d then (.error errTransferMismoAlmacen, s)
    else
      match findAlmacen s o, findAlmacen s d with
      | some almO, some almD =>
        if req.transferencias.any (fun t => t.cantidad ≤ 0) then
          (.error errTransferCantidad, s)
        else if req.transferencias.any (fun t =>
            match findInventarioLote s o t.presentacionId t.loteId with
            | none => true
            | some inv => if inv.cantidad < t.cantidad then true else false) then
          (.error errTransferStock, s)
        else
          match aplicarTransferencias s o d almO.nombre almD.nombre
              s.inventarios req.transferencias with
          | .error _ => (.error errTransferInterno, s)
          | .ok (invs, movs) =>
            (.ok (), { s with inventarios := invs, movimientos := s.movimientos ++ movs })
      | _, _ => (.error errAlmacenNoEncontrado, s)
  | _, _ => (.error errTransferCamposRequeridos, s)

/-!
Concrete scenario states used by the individual claims.
-/

/-- Store for the create-then-delete scenario: one presentation, two
warehouses each holding a record for it (with different lots), one client,
no sales yet. -/
def baseDB : DB :=
  { presentaciones := [⟨1, "P", 3⟩]
    lotes := [⟨1, 100⟩, ⟨2, 100⟩]
    almacenes := [⟨1, "A"⟩, ⟨2, "B"⟩]
    clientes := [⟨1, "C"⟩]
    inventarios := [⟨1, 1, some 1, 100, 10⟩, ⟨1, 2, some 2, 50, 10⟩]
    ventas := []
    movimientos := []
    pagos := []
    pedidos := []
    nextVentaId := 1
    objetos := [] }

/-- Creation request of the sale that will later be deleted: 10 units of
presentation 1 in warehouse 1. -/
def c3Req1 : VentaReq := ⟨1, 1, "contado", none, [⟨1, 10, some 3⟩]⟩

/-- A later sale in warehouse 2 drawing on the same presentation. -/
def c3ReqB (q : ℚ) : VentaReq := ⟨1, 2, "contado", none, [⟨1, q, some 3⟩]⟩

/-- State after creating sale 1. -/
def c3s1 : DB := (ventaPost baseDB c3Req1).2

/-- One further sale of one unit in warehouse 2. -/
def c3Step (s : DB) : DB := (ventaPost s (c3ReqB 1)).2

/-- State after sales 2-9 (one unit each in warehouse 2) and sale 10
(7 units in warehouse 2). -/
def c3s10 : DB := (ventaPost (c3Step^[8] c3s1) (c3ReqB 7)).2

/-- State after deleting sale 1. -/
def c3Final : DB := (ventaDelete c3s10 1).2

/-- Store for Scenario E of the batch-payment claim: sale 1 with total 50.00
and no payments. -/
def c1DB : DB :=
  { presentaciones := []
    lotes := []
    almacenes := [⟨1, "A"⟩]
    clientes := [⟨1, "C"⟩]
    inventarios := []
    ventas := [⟨1, 1, 1, 50, "contado", "pendiente", []⟩]
    movimientos := []
    pagos := []
    pedidos := []
    nextVentaId := 2
    objetos := [] }

/-- Scenario E batch request: two pairs of 30.00 against sale 1, with a
receipt attached. -/
def c1ReqE : BatchReq :=
  ⟨some (some [(1, 30), (1, 30)]), some "2025-01-01T00:00:00", some "transferencia", true⟩

/-- A perfectly valid batch request (one pair of 20.00 against sale 1, well
within the balance of 50.00), with a receipt attached. -/
def c1ReqValida : BatchReq :=
  ⟨some (some [(1, 20)]), some "2025-01-01T00:00:00", some "deposito", true⟩

/-- Store for the sale-update claim: sale 1 already created in warehouse 1
(10 units of presentation 1 consumed, its movement recorded). -/
def c2DB : DB :=
  { presentaciones := [⟨1, "P", 3⟩]
    lotes := [⟨1, 100⟩]
    almacenes := [⟨1, "A"⟩]
    clientes := [⟨1, "C"⟩]
    inventarios := [⟨1, 1, some 1, 90, 10⟩]
    ventas := [⟨1, 1, 1, 30, "contado", "pendiente", [⟨1, 10, 3⟩]⟩]
    movimientos := [⟨"salida", 1, some 1, 10, "Venta ID: 1 - Cliente: C"⟩]
    pagos := []
    pedidos := []
    nextVentaId := 2
    objetos := [] }

/-- An update request for sale 1 whose body contains new line items. -/
def c2Req : VentaPutReq := ⟨true, none, none⟩

/-- Store for the conversion claims: order 1 (programado) over presentation
1 in warehouse 1.  For the non-negativity claim the order holds two line
items of 30 units each against a stock of 50. -/
def c5DB : DB :=
  { presentaciones := [⟨1, "P", 2⟩]
    lotes := [⟨1, 100⟩]
    almacenes := [⟨1, "A"⟩]
    clientes := [⟨1, "C"⟩]
    inventarios := [⟨1, 1, some 1, 50, 10⟩]
    ventas := []
    movimientos := []
    pagos := []
    pedidos := [⟨1, 1, 1, "programado", [⟨1, 30, 2⟩, ⟨1, 30, 2⟩]⟩]
    nextVentaId := 1
    objetos := [] }

/-- Store for the movement-tagging claim: order 1 (programado) with a single
line item of 5 units against a stock of 50. -/
def c8DB : DB :=
  { presentaciones := [⟨1, "P", 2⟩]
    lotes := [⟨1, 100⟩]
    almacenes := [⟨1, "A"⟩]
    clientes := [⟨1, "C"⟩]
    inventarios := [⟨1, 1, some 1, 50, 10⟩]
    ventas := []
    movimientos := []
    pagos := []
    pedidos := [⟨1, 1, 1, "programado", [⟨1, 5, 2⟩]⟩]
    nextVentaId := 1
    objetos := [] }

/-- Store for Scenario C of the transfer claim: warehouse A holds 20 units
of (presentation 1, lot 1), warehouse B holds no record. -/
def c4DB : DB :=
  { presentaciones := [⟨1, "P", 3⟩]
    lotes := [⟨1, 100⟩]
    almacenes := [⟨1, "A"⟩, ⟨2, "B"⟩]
    clientes := []
    inventarios := [⟨1, 1, some 1, 20, 3⟩]
    ventas := []
    movimientos := []
    pagos := []
    pedidos := []
    nextVentaId := 1
    objetos := [] }

/-- Scenario C transfer request: 5 units of (presentation 1, lot 1) from
warehouse 1 to warehouse 2. -/
def c4Req : TransferReq := ⟨some 1, some 2, [⟨1, some 1, 5⟩]⟩

/-- Store for the single-payment claims: sale 1 with total 50.00 and no
payments. -/
def c6DB : DB :=
  { presentaciones := []
    lotes := []
    almacenes := [⟨1, "A"⟩]
    clientes := [⟨1, "C"⟩]
    inventarios := []
    ventas := [⟨1, 1, 1, 50, "contado", "pendiente", []⟩]
    movimientos := []
    pagos := []
    pedidos := []
    nextVentaId := 2
    objetos := [] }

/-- The sale row of `c6DB`. -/
def c6Venta : Venta := ⟨1, 1, 1, 50, "contado", "pendiente", []⟩

/-- Store for the lot-quantity claim: lot 1 holds 100 kg available, the
warehouse-1 record of presentation 1 is tied to lot 1 with 50 units. -/
def c9DB : DB :=
  { presentaciones := [⟨1, "P", 3⟩]
    lotes := [⟨1, 100⟩]
    almacenes := [⟨1, "A"⟩]
    clientes := [⟨1, "C"⟩]
    inventarios := [⟨1, 1, some 1, 50, 10⟩]
    ventas := []
    movimientos := []
    pagos := []
    pedidos := []
    nextVentaId := 1
    objetos := [] }

/-- Sale request drawing 10 units from the lot-1 record. -/
def c9Req : VentaReq := ⟨1, 1, "contado", none, [⟨1, 10, some 3⟩]⟩

/-- Store for the deletion-without-inventory claim: sale 1 in warehouse 1
with its movement recorded, but no inventory record for (presentation 1,
warehouse 1) — the only record is for a different presentation. -/
def c10DB : DB :=
  { presentaciones := [⟨1, "P", 3⟩]
    lotes := []
    almacenes := [⟨1, "A"⟩]
    clientes := [⟨1, "C"⟩]
    inventarios := [⟨2, 1, none, 5, 1⟩]
    ventas := [⟨1, 1, 1, 30, "contado", "pendiente", [⟨1, 10, 3⟩]⟩]
    movimientos := [⟨"salida", 1, some 1, 10, "Venta ID: 1 - Cliente: C"⟩]
    pagos := []
    pedidos := []
    nextVentaId := 2
    objetos := [] }

/-- The sale row of `c10DB`. -/
def c10Venta : Venta := ⟨1, 1, 1, 30, "contado", "pendiente", [⟨1, 10, 3⟩]⟩

/-!
Helper lemmas.
-/

theorem creditInventario_no_match (invs : List Inventario) (presId almId : Nat) (c : ℚ)
    (h : ∀ inv ∈ invs, ¬(inv.presentacionId = presId ∧ inv.almacenId = almId)) :
    creditInventario invs presId almId c = invs := by
  induction invs with
  | nil => rfl
  | cons inv rest ih =>
    have hinv := h inv (List.mem_cons_self inv rest)
    have hcond : ¬((inv.presentacionId == presId && inv.almacenId == almId) = true) := by
      intro hc
      rw [Bool.and_eq_true, beq_iff_eq, beq_iff_eq] at hc
      exact hinv hc
    rw [creditInventario, if_neg hcond]
    exact congrArg (inv :: ·) (ih (fun i hi => h i (List.mem_cons_of_mem inv hi)))

theorem foldl_credit_no_match (ms : List Movimiento) (almId : Nat) (invs : List Inventario)
    (h : ∀ m ∈ ms, ∀ inv ∈ invs, ¬(inv.presentacionId = m.presentacionId ∧ inv.almacenId = almId)) :
    ms.foldl (fun acc m => creditInventario acc m.presentacionId almId m.cantidad) invs = invs := by
  induction ms with
  | nil => rfl
  | cons m rest ih =>
    simp only [List.foldl]
    rw [creditInventario_no_match invs m.presentacionId almId m.cantidad
      (h m (List.mem_cons_self m rest))]
    exact ih (fun m' hm' inv hi => h m' (List.mem_cons_of_mem m hm') inv hi)

theorem lotes_ventaPost (s : DB) (req : VentaReq) : (ventaPost s req).2.lotes = s.lotes := by
  unfold ventaPost
  repeat' split <;> try rfl

theorem lotes_pedidoConversion (s : DB) (pid : Nat) (tp : String) (b : Bool) :
    (pedidoConversion s pid tp b).2.lotes = s.lotes := by
  unfold pedidoConversion
  repeat' split <;> try rfl

theorem lotes_transferenciaPost (s : DB) (req : TransferReq) :
    (transferenciaPost s req).2.lotes = s.lotes := by
  unfold transferenciaPost
  repeat' split <;> try rfl

/-!
Claim theorems.
-/

/-- C1: the claim says a batch whose two pairs each fit the sale's balance
but jointly exceed it is rejected by a cumulative balance check, with no
Payment persisted and an uploaded receipt deleted.  What the code does: the
un-imported `datetime` makes `PagoBatchResource.post` answer 400 "Datos de
formulario inválidos" to *every* batch — the Scenario E batch and an
entirely valid batch alike — before any receipt is uploaded or any pair
validated; and the validation loop it never reaches has no running-balance
check (each pair is compared against the same `venta.saldo_pendiente`). -/
theorem C1_batch_payment_always_rejected :
    pagoBatchPost c1DB c1ReqE = (.error errBatchDatosInvalidos, c1DB) ∧
    pagoBatchPost c1DB c1ReqValida = (.error errBatchDatosInvalidos, c1DB) ∧
    saldoPendiente (50 : ℚ) (pagosDe c1DB 1) = 50 := by
  refine ⟨by decide, by decide, by decide⟩

/-- C2 (counterexample): updating sale 1 of `c2DB` with new line items does
not reverse its stock consumption and re-apply — the request is rejected
with the immutable-field error, the state is unchanged, and the sale's
Movements are still present. -/
theorem C2_update_counterexample :
    (ventaPut c2DB 1 c2Req).1 = .error errInmutableDetalles ∧
    (ventaPut c2DB 1 c2Req).2 = c2DB ∧
    c2DB.movimientos.filter (fun m => strStartsWith (ventaTag 1) m.motivo) ≠ [] := by
  refine ⟨by decide, by decide, by decide⟩

/-- C2 (amended): updating an existing sale with a request that includes
line items is rejected with 400 "Campo inmutable 'detalles' no puede
modificarse" and leaves the store untouched; the update path never reverses
stock or deletes Movements. -/
theorem C2_update_rejects_line_items (s : DB) (vid : Nat) (venta : Venta)
    (h : findVenta s vid = some venta) (alm : Option Nat) (tp : Option String) :
    ventaPut s vid ⟨true, alm, tp⟩ = (.error errInmutableDetalles, s) := by
  unfold ventaPut
  rw [h]
  rfl

/-- Witness for `C2_update_rejects_line_items` at `c2DB`. -/
theorem C2_update_rejects_line_items_witness :
    ventaPut c2DB 1 ⟨true, none, none⟩ = (.error errInmutableDetalles, c2DB) :=
  C2_update_rejects_line_items c2DB 1 ⟨1, 1, 1, 30, "contado", "pendiente", [⟨1, 10, 3⟩]⟩
    (by decide) none none

/-- C3: creating sale 1 (10 units, warehouse 1, record at 100) and deleting
it does *not* restore the touched record to its pre-creation quantity when a
later sale's id has 1 as a decimal prefix: after sales 2-10 in warehouse 2,
deleting sale 1 matches sale 10's movement via `LIKE 'Venta ID: 1%'`,
credits its 7 units to warehouse 1 as well, and leaves the record at 107
instead of 100 — while sale 10 still exists but its movement rows are gone. -/
theorem C3_create_delete_prefix_collision :
    (ventaPost baseDB c3Req1).1 = .ok 1 ∧
    (findInventario baseDB 1 1).map (fun i => i.cantidad) = some 100 ∧
    (findInventario c3s1 1 1).map (fun i => i.cantidad) = some 90 ∧
    (ventaDelete c3s10 1).1 = .ok () ∧
    (findInventario c3Final 1 1).map (fun i => i.cantidad) = some 107 ∧
    (107 : ℚ) ≠ 100 ∧
    (findVenta c3Final 10).isSome = true ∧
    c3Final.movimientos.all (fun m => !(strStartsWith (ventaTag 10) m.motivo)) = true := by
  refine ⟨by decide, by decide, by decide, by decide, by decide, by decide, by decide, by decide⟩

/-- C4: the Scenario C transfer (5 units of (presentation 1, lot 1) from
warehouse 1 holding 20 to warehouse 2 with no record) does not succeed: the
`Movimiento` constructor receives the unknown keyword `tipo_operacion`, the
`TypeError` is caught by the blanket handler, and the request answers 500
with the store unchanged (warehouse 1 still at 20, no record at warehouse 2,
no movements). -/
theorem C4_transfer_raises_type_error :
    transferenciaPost c4DB c4Req = (.error errTransferInterno, c4DB) ∧
    mkMovimientoDecl kwargsMovimientoTransferencia ⟨"salida", 1, some 1, 5, "Transferencia a B"⟩
      = .error "TypeError: tipo_operacion is an invalid keyword argument for Movimiento" ∧
    (findInventario c4DB 1 1).map (fun i => i.cantidad) = some 20 ∧
    findInventario c4DB 1 2 = none ∧
    c4DB.movimientos = [] := by
  refine ⟨by decide, by decide, by decide, by decide, by decide⟩

/-- C5: converting order 1 of `c5DB` — two line items of 30 units of the
same presentation against a stock of 50 — succeeds (each line is validated
independently against the same quantity) and leaves the inventory record at
-10: the non-negativity invariant is violated and the operation is not
rejected. -/
theorem C5_conversion_drives_stock_negative :
    (pedidoConversion c5DB 1 "contado" true).1 = .ok 1 ∧
    (findInventario (pedidoConversion c5DB 1 "contado" true).2 1 1).map (fun i => i.cantidad)
      = some (-10) ∧
    ((-10 : ℚ) < 0) := by
  refine ⟨by decide, by decide, by decide⟩

/-- C6 (counterexample): with sale 1 of total 50.00 and no payments, a
payment of 50.001 is rejected by `PagoResource.post` although the claim's
condition `amount > pending + ε` (ε ≈ 0.001, whether read as the decimal
0.001 or the float value `epsFloat`) is false: the code compares `monto >
saldo_pendiente` with no epsilon. -/
theorem C6_epsilon_counterexample :
    (pagoPost c6DB ⟨1, mkRat 50001 1000⟩).1 = .error errMontoExcede ∧
    (pagoPost c6DB ⟨1, mkRat 50001 1000⟩).2 = c6DB ∧
    ¬(mkRat 50001 1000 > qadd (saldoPendiente c6Venta.total (pagosDe c6DB 1)) (mkRat 1 1000)) ∧
    ¬(mkRat 50001 1000 > qadd (saldoPendiente c6Venta.total (pagosDe c6DB 1)) epsFloat) := by
  refine ⟨by decide, by decide, by decide, by decide⟩

/-- C6 (amended): `PagoResource.post` fails with the balance error exactly
when the amount exceeds `pending = total - Σ(existing payments)` — strictly,
with no epsilon — and otherwise persists the Payment. -/
theorem C6_no_epsilon_check (s : DB) (vid : Nat) (monto : ℚ) (venta : Venta)
    (h : findVenta s vid = some venta) :
    ((pagoPost s ⟨vid, monto⟩).1 = .error errMontoExcede ↔
      monto > venta.total - (pagosDe s vid).sum) ∧
    ((pagoPost s ⟨vid, monto⟩).1 = .ok () ↔
      monto ≤ venta.total - (pagosDe s vid).sum) ∧
    (monto ≤ venta.total - (pagosDe s vid).sum →
      (pagoPost s ⟨vid, monto⟩).2.pagos = s.pagos ++ [⟨vid, monto⟩]) := by
  unfold pagoPost
  rw [h]
  simp only [qsub_eq, pySum_eq]
  by_cases hc : monto > venta.total - (pagosDe s vid).sum
  · rw [if_pos hc]
    refine ⟨⟨fun _ => hc, fun _ => rfl⟩, ⟨fun hx => absurd hx (by simp), fun hx => absurd hc (not_lt.mpr hx)⟩, fun hx => absurd hc (not_lt.mpr hx)⟩
  · rw [if_neg hc]
    refine ⟨⟨fun hx => absurd hx (by simp), fun hx => absurd hx hc⟩, ⟨fun _ => not_lt.mp hc, fun _ => rfl⟩, fun _ => rfl⟩

/-- Witness for `C6_no_epsilon_check` at `c6DB` with a payment of 20. -/
theorem C6_no_epsilon_check_witness :
    ((pagoPost c6DB ⟨1, 20⟩).1 = .error errMontoExcede ↔
      (20 : ℚ) > c6Venta.total - (pagosDe c6DB 1).sum) ∧
    ((pagoPost c6DB ⟨1, 20⟩).1 = .ok () ↔
      (20 : ℚ) ≤ c6Venta.total - (pagosDe c6DB 1).sum) ∧
    ((20 : ℚ) ≤ c6Venta.total - (pagosDe c6DB 1).sum →
      (pagoPost c6DB ⟨1, 20⟩).2.pagos = c6DB.pagos ++ [⟨1, 20⟩]) :=
  C6_no_epsilon_check c6DB 1 20 c6Venta (by decide)

/-- C7 (counterexample): for a sale with `total = 0` and no payments the
claim demands `pendiente` (the payment sum is 0), but `actualizar_estado`
checks `abs(saldo) <= 0.001` first and answers `pagado`. -/
theorem C7_status_zero_total_counterexample :
    actualizarEstado 0 [] none = "pagado" ∧
    ([] : List ℚ).sum = 0 ∧
    actualizarEstado 0 [] none ≠ "pendiente" := by
  refine ⟨by decide, by decide, by decide⟩

/-- C7 (amended): `actualizar_estado` is the pure function of the total and
the considered payment sum with the `pagado` test taking precedence:
`pagado` exactly when `|total − sum| ≤ epsFloat` (including `total = 0` with
sum 0), otherwise `parcial` exactly when `sum > 0`, otherwise `pendiente`. -/
theorem C7_status_characterization (total : ℚ) (pagos : List ℚ) (nuevo : Option ℚ) :
    (actualizarEstado total pagos nuevo = "pagado" ↔
      pyAbs (total - (pagos.sum + nuevo.getD 0)) ≤ epsFloat) ∧
    (actualizarEstado total pagos nuevo = "parcial" ↔
      ¬(pyAbs (total - (pagos.sum + nuevo.getD 0)) ≤ epsFloat) ∧ 0 < pagos.sum + nuevo.getD 0) ∧
    (actualizarEstado total pagos nuevo = "pendiente" ↔
      ¬(pyAbs (total - (pagos.sum + nuevo.getD 0)) ≤ epsFloat) ∧ pagos.sum + nuevo.getD 0 ≤ 0) := by
  have hs1 : ("pagado" : String) ≠ "parcial" := by decide
  have hs2 : ("pagado" : String) ≠ "pendiente" := by decide
  have hs3 : ("parcial" : String) ≠ "pagado" := by decide
  have hs4 : ("parcial" : String) ≠ "pendiente" := by decide
  have hs5 : ("pendiente" : String) ≠ "pagado" := by decide
  have hs6 : ("pendiente" : String) ≠ "parcial" := by decide
  unfold actualizarEstado
  simp only [qadd_eq, qsub_eq, pySum_eq]
  by_cases h1 : pyAbs (total - (pagos.sum + nuevo.getD 0)) ≤ epsFloat
  · rw [if_pos h1]
    refine ⟨⟨fun _ => h1, fun _ => rfl⟩,
      ⟨fun hx => absurd hx hs1, fun hx => absurd h1 hx.1⟩,
      ⟨fun hx => absurd hx hs2, fun hx => absurd h1 hx.1⟩⟩
  · rw [if_neg h1]
    by_cases h2 : pagos.sum + nuevo.getD 0 > 0
    · rw [if_pos h2]
      refine ⟨⟨fun hx => absurd hx hs3, fun hx => absurd hx h1⟩,
        ⟨fun _ => ⟨h1, h2⟩, fun _ => rfl⟩,
        ⟨fun hx => absurd hx hs4, fun hx => absurd h2 (not_lt.mpr hx.2)⟩⟩
    · rw [if_neg h2]
      refine ⟨⟨fun hx => absurd hx hs5, fun hx => absurd hx h1⟩,
        ⟨fun hx => absurd hx hs6, fun hx => absurd hx.2 h2⟩,
        ⟨fun _ => ⟨h1, not_lt.mp h2⟩, fun _ => rfl⟩⟩

/-- C8: converting order 1 of `c8DB` succeeds and creates sale 1, but its
movement is tagged `"Venta ID: None - Cliente: C (desde pedido 1)"` — the
sale id is interpolated before the sale is flushed — so no movement of the
conversion starts with the tag of the created sale; a direct creation of the
same sale tags `"Venta ID: 1 - Cliente: C"`. -/
theorem C8_conversion_movements_not_tagged :
    (pedidoConversion c8DB 1 "contado" true).1 = .ok 1 ∧
    (pedidoConversion c8DB 1 "contado" true).2.movimientos.map (fun m => m.motivo)
      = ["Venta ID: None - Cliente: C (desde pedido 1)"] ∧
    (pedidoConversion c8DB 1 "contado" true).2.movimientos.all
      (fun m => !(strStartsWith (ventaTag 1) m.motivo)) = true ∧
    (ventaPost c8DB ⟨1, 1, "contado", none, [⟨1, 5, some 2⟩]⟩).2.movimientos.map
      (fun m => m.motivo) = ["Venta ID: 1 - Cliente: C"] := by
  refine ⟨by decide, by decide, by decide, by decide⟩

/-- C9 (counterexample): creating a sale that draws 10 units from the
lot-1-backed record of `c9DB` succeeds, debits the inventory record from 50
to 40 and emits a movement referencing lot 1 — but the lot's
`cantidad_disponible_kg` is left at 100, unchanged, where the claim requires
a decrement. -/
theorem C9_sale_leaves_lot_unchanged :
    (ventaPost c9DB c9Req).1 = .ok 1 ∧
    (ventaPost c9DB c9Req).2.movimientos.map (fun m => m.loteId) = [some 1] ∧
    (findInventario (ventaPost c9DB c9Req).2 1 1).map (fun i => i.cantidad) = some 40 ∧
    (ventaPost c9DB c9Req).2.lotes = c9DB.lotes ∧
    c9DB.lotes = [⟨1, 100⟩] := by
  refine ⟨by decide, by decide, by decide, by decide, by decide⟩

/-- C9 (amended): no stock-consuming operation — sale creation, order
conversion or inter-warehouse transfer — ever modifies any `Lote` row:
`cantidad_disponible_kg` changes only through direct lot updates. -/
theorem C9_no_stock_operation_touches_lots (s : DB) (vreq : VentaReq) (pid : Nat)
    (tp : String) (b : Bool) (treq : TransferReq) :
    (ventaPost s vreq).2.lotes = s.lotes ∧
    (pedidoConversion s pid tp b).2.lotes = s.lotes ∧
    (transferenciaPost s treq).2.lotes = s.lotes :=
  ⟨lotes_ventaPost s vreq, lotes_pedidoConversion s pid tp b, lotes_transferenciaPost s treq⟩

/-- C10: deleting a sale when no inventory record exists for a reversed
movement's (presentation, sale-warehouse) pair still succeeds: the matched
movements and the sale are deleted, no quantity is credited anywhere, and
the inventory table is unchanged. -/
theorem C10_delete_without_inventory_succeeds (s : DB) (vid : Nat) (venta : Venta)
    (hfind : findVenta s vid = some venta)
    (hnone : ∀ m ∈ s.movimientos, strStartsWith (ventaTag vid) m.motivo = true →
      ∀ inv ∈ s.inventarios,
        ¬(inv.presentacionId = m.presentacionId ∧ inv.almacenId = venta.almacenId)) :
    (ventaDelete s vid).1 = .ok () ∧
    (ventaDelete s vid).2.inventarios = s.inventarios ∧
    (ventaDelete s vid).2.movimientos
      = s.movimientos.filter (fun m => !(strStartsWith (ventaTag vid) m.motivo)) ∧
    (ventaDelete s vid).2.ventas = s.ventas.filter (fun v => !(v.id == vid)) := by
  unfold ventaDelete
  rw [hfind]
  refine ⟨rfl, ?_, rfl, rfl⟩
  show (s.movimientos.filter (fun m => strStartsWith (ventaTag vid) m.motivo)).foldl
      (fun acc m => creditInventario acc m.presentacionId venta.almacenId m.cantidad)
      s.inventarios = s.inventarios
  apply foldl_credit_no_match
  intro m hm inv hi
  rw [List.mem_filter] at hm
  exact hnone m hm.1 hm.2 inv hi

/-- Witness for `C10_delete_without_inventory_succeeds` at `c10DB`: sale 1
has a movement for presentation 1 but the only inventory record is for
presentation 2. -/
theorem C10_delete_without_inventory_succeeds_witness :
    (ventaDelete c10DB 1).1 = .ok () ∧
    (ventaDelete c10DB 1).2.inventarios = c10DB.inventarios ∧
    (ventaDelete c10DB 1).2.movimientos
      = c10DB.movimientos.filter (fun m => !(strStartsWith (ventaTag 1) m.motivo)) ∧
    (ventaDelete c10DB 1).2.ventas = c10DB.ventas.filter (fun v => !(v.id == 1)) :=
  C10_delete_without_inventory_succeeds c10DB 1 c10Venta (by decide) (by decide)
